import Mathlib

/-!
Shallow embedding of the nextjs-kit repository (src/src/server-error.ts,
src/src/helpers.ts, src/src/client/client.ts, src/src/client/use-server-action.ts)
and proofs about the frozen claims.

JavaScript values that the code inspects dynamically are modelled by the
inductive type JSValue; truthiness and property lookup follow the JS rules
the code relies on.  Statuses are JS numbers restricted to integers.
-/

/-- Model of a dynamically-typed JavaScript value (floats are not needed by
this code base; numbers are modelled as integers). -/
inductive JSValue where
  | vNull
  | vUndefined
  | vBool (b : Bool)
  | vNum (n : Int)
  | vStr (s : String)
  | vObj (fields : List (String × JSValue))
  | vArr (elems : List JSValue)
deriving Repr

/-- JavaScript truthiness of a value, as used by conditions such as
`obj && ...` and `x || y`. -/
def truthy : JSValue → Bool
  | .vNull => false
  | .vUndefined => false
  | .vBool b => b
  | .vNum n => n != 0
  | .vStr s => s != ""
  | .vObj _ => true
  | .vArr _ => true

/-- First-match property lookup in an object literal field list. -/
def lookupField : List (String × JSValue) → String → JSValue
  | [], _ => .vUndefined
  | (k, v) :: rest, name => if k == name then v else lookupField rest name

/-- Property access `v.name`: objects look the field up, every other value
(as used by this code) yields undefined. -/
def getField (v : JSValue) (name : String) : JSValue :=
  match v with
  | .vObj fields => lookupField fields name
  | _ => .vUndefined

/-- `typeof x === "string"` -/
def isStringVal : JSValue → Bool
  | .vStr _ => true
  | _ => false

/-- `typeof x === "number"` -/
def isNumberVal : JSValue → Bool
  | .vNum _ => true
  | _ => false

/-- `x === true` -/
def isTrueVal : JSValue → Bool
  | .vBool b => b
  | _ => false

/-- src/src/client/client.ts, isErrorObject:
`obj && typeof obj.error === "string" && typeof obj.status === "number" && obj.__isErrorObj === true`. -/
def isErrorObject (obj : JSValue) : Bool :=
  truthy obj && isStringVal (getField obj "error") && isNumberVal (getField obj "status")
    && isTrueVal (getField obj "__isErrorObj")

/-- src/src/client/client.ts, isSuccessObject: `!isErrorObject(obj)`. -/
def isSuccessObject (obj : JSValue) : Bool :=
  !isErrorObject obj

/-- next/navigation RedirectType ("replace" or "push"). -/
inductive RedirectType where
  | push
  | replace
deriving DecidableEq, Repr

/-- The `userMessage?: string | true` field of ServerErrorInfo:
absent, an explicit string, or the literal `true`. -/
inductive UserMessageInfo where
  | absent
  | str (s : String)
  | useRaw
deriving DecidableEq, Repr

/-- src/src/server-error.ts, ServerErrorInfo.  The `cause` and `data` fields
are not inspected by the library; `cause` is modelled as an identifier of the wrapped
thrown value. -/
structure ServerErrorInfo where
  cause : Option Nat := none
  status : Option Int := none
  userMessage : UserMessageInfo := .absent
  redirect : Option String := none
  redirectType : Option RedirectType := none
  tags : Option (List String) := none
deriving DecidableEq, Repr

/-- src/src/server-error.ts, class ServerError. -/
structure ServerError where
  message : String
  info : ServerErrorInfo := {}
deriving DecidableEq, Repr

/-- src/src/server-error.ts, getDefaultErrorMessage: the switch over well-known
status codes, with the generic "Error" default. -/
def getDefaultErrorMessage (status : Int) : String :=
  if status = 400 then "Bad Request"
  else if status = 401 then "Unauthorized"
  else if status = 403 then "Forbidden"
  else if status = 404 then "Not Found"
  else if status = 406 then "Not Acceptable"
  else if status = 409 then "Conflict"
  else if status = 422 then "Unprocessable Entity"
  else if status = 429 then "Too Many Requests"
  else if status = 451 then "Unavailable For Legal Reasons"
  else if status = 500 then "Internal Server Error"
  else if status = 501 then "Not Implemented"
  else "Error"

/-- ServerError.getStatus: `this.info.status ?? 500`. -/
def ServerError.getStatus (e : ServerError) : Int :=
  e.info.status.getD 500

/-- ServerError.getUserMessage:
`if (this.info.userMessage === true) return this.message;
 return this.info.userMessage || getDefaultErrorMessage(this.getStatus());`
The `||` uses JS truthiness, so an empty override string falls through. -/
def ServerError.getUserMessage (e : ServerError) : String :=
  match e.info.userMessage with
  | .useRaw => e.message
  | .str s => if s == "" then getDefaultErrorMessage e.getStatus else s
  | .absent => getDefaultErrorMessage e.getStatus

/-- ServerError.shouldRedirect: `!!this.info.redirect` (truthiness, so an
empty-string target counts as no redirect). -/
def ServerError.shouldRedirect (e : ServerError) : Bool :=
  match e.info.redirect with
  | some s => s != ""
  | none => false

/-- ServerError.getTags: `this.info.tags || []` (an array is always truthy,
so a present list is returned as is). -/
def ServerError.getTags (e : ServerError) : List String :=
  e.info.tags.getD []

/-- ServerError.getRedirect: `this.info.redirect || ""`. -/
def ServerError.getRedirect (e : ServerError) : String :=
  match e.info.redirect with
  | some s => if s == "" then "" else s
  | none => ""

/-- A value thrown inside the unit of work handed to send or act:
a ServerError instance, a value satisfying next.js isRedirectError
(identified by a plain numeric id), or any other value (numeric id). -/
inductive Thrown where
  | serverErr (e : ServerError)
  | redirectErr (id : Nat)
  | other (id : Nat)
deriving DecidableEq, Repr

/-- next/dist/client/components/redirect isRedirectError: the predicate that
recognises the navigation control-flow signal. -/
def isRedirectError : Thrown → Bool
  | .redirectErr _ => true
  | _ => false

/-- `err instanceof ServerError` as a test on a thrown value. -/
def Thrown.isServerErrorVal : Thrown → Bool
  | .serverErr _ => true
  | _ => false

/-- The `errorLogs?: "5xx" | "all" | "disabled"` option of SendLikeOptions. -/
inductive ErrorLogs where
  | fivexx
  | all
  | disabled
deriving DecidableEq, Repr

/-- src/src/helpers.ts, SendLikeOptions.  `onError` is a side-effect hook, so
only its presence matters to the model (the trace records the argument it
receives); `mapError` influences the result, so it is kept as a function. -/
structure SendLikeOptions where
  onError : Bool := false
  mapError : Option (Thrown → Option ServerError) := none
  errorLogs : Option ErrorLogs := none

/-- A console.error entry emitted by the logError helper of helpers.ts:
the ServerError marker carries the status printed in the marker line. -/
inductive LogEntry where
  | serverError (status : Int) (e : ServerError)
  | unknown (t : Thrown)
deriving DecidableEq, Repr

/-- helpers.ts logError: chooses the marker by an instanceof test. -/
def logEntryFor : Thrown → LogEntry
  | .serverErr se => .serverError se.getStatus se
  | t => .unknown t

/-- The mapError stage shared by send and act:
`if (options.mapError && !(err instanceof ServerError)) {
   const mappedErr = options.mapError(err); if (mappedErr != null) err = mappedErr; }`
Returns the (possibly replaced) error together with the argument mapError was
invoked on (none when it was not invoked). -/
def applyMapError (opts : SendLikeOptions) (err : Thrown) : Thrown × Option Thrown :=
  match opts.mapError with
  | none => (err, none)
  | some f =>
    match err with
    | .serverErr e => (.serverErr e, none)
    | e =>
      match f e with
      | some se => (.serverErr se, some e)
      | none => (e, some e)

/-- `!options.errorLogs || options.errorLogs === "all"` -/
def logAllFor : Option ErrorLogs → Bool
  | none => true
  | some .all => true
  | some _ => false

/-- Model of a fetch Response as far as this library inspects or builds one:
a status plus a body that is either uninspected caller content or the
JSON.stringify of an error object literal. -/
inductive ResponseBody where
  | content (id : Nat)
  | errorJson (error : String) (status : Int) (tags : List String)
deriving DecidableEq, Repr

/-- Response: status code and body (the JSON content-type header always
accompanies an errorJson body in the source and is not modelled separately). -/
structure Response where
  status : Int
  body : ResponseBody
deriving DecidableEq, Repr

/-- The unit of work handed to a boundary function: it either produces a
value or raises a thrown value.  (A `() => ...` thunk and an already-made
promise behave identically inside the try block.) -/
inductive WorkResult (α : Type) where
  | value (a : α)
  | raised (t : Thrown)

/-- The observable outcome of send: a returned response, the navigation
signal rethrown unchanged, or delegation to the next.js redirect primitive
(which itself raises a fresh navigation signal). -/
inductive SendOut where
  | response (r : Response)
  | rethrown (t : Thrown)
  | navigated (url : String) (ty : Option RedirectType)
deriving DecidableEq, Repr

/-- Full observable trace of one send call: outcome, log entries emitted,
the argument onError received (if the hook was supplied and invoked), and
the argument mapError received (if invoked). -/
structure SendTrace where
  outcome : SendOut
  logs : List LogEntry
  onErrorArg : Option Thrown
  mapErrorArg : Option Thrown
deriving DecidableEq, Repr

/-- src/src/helpers.ts, send (lines 189-240 of the current revision). -/
def send : WorkResult Response → SendLikeOptions → SendTrace
  | .value r, _ => ⟨.response r, [], none, none⟩
  | .raised err₀, opts =>
    if isRedirectError err₀ then ⟨.rethrown err₀, [], none, none⟩
    else
      let m := applyMapError opts err₀
      let err := m.1
      let onArg := if opts.onError then some err else none
      let logAll := logAllFor opts.errorLogs
      match err with
      | .serverErr se =>
        let status := se.getStatus
        let logs :=
          if logAll || ((opts.errorLogs == some .fivexx) && (500 ≤ status : Bool)) then
            [LogEntry.serverError status se]
          else []
        if se.shouldRedirect then
          ⟨.navigated se.getRedirect se.info.redirectType, logs, onArg, m.2⟩
        else
          ⟨.response ⟨status, .errorJson se.getUserMessage status se.getTags⟩, logs, onArg, m.2⟩
      | e =>
        let logs :=
          if logAll || (opts.errorLogs == some .fivexx) then [LogEntry.unknown e] else []
        ⟨.response ⟨500, .errorJson "Internal Server Error" 500 []⟩, logs, onArg, m.2⟩

/-- The object literal act returns on the failure path:
`{error, status, tags, __isErrorObj: true}`. -/
def mkErrorObject (error : String) (status : Int) (tags : List String) : JSValue :=
  .vObj [("error", .vStr error), ("status", .vNum status),
         ("tags", .vArr (tags.map .vStr)), ("__isErrorObj", .vBool true)]

/-- The observable outcome of act: a returned value (the action result or an
error object literal) or the navigation signal rethrown unchanged. -/
inductive ActOut where
  | value (v : JSValue)
  | rethrown (t : Thrown)

/-- Full observable trace of one act call. -/
structure ActTrace where
  outcome : ActOut
  logs : List LogEntry
  onErrorArg : Option Thrown
  mapErrorArg : Option Thrown

/-- src/src/helpers.ts, act (lines 250-283 of the current revision).  Note the
logging line is `if (options.errorLogs !== "disabled") logError(err);` with no
5xx filtering. -/
def act : WorkResult JSValue → SendLikeOptions → ActTrace
  | .value v, _ => ⟨.value v, [], none, none⟩
  | .raised err₀, opts =>
    if isRedirectError err₀ then ⟨.rethrown err₀, [], none, none⟩
    else
      let m := applyMapError opts err₀
      let err := m.1
      let onArg := if opts.onError then some err else none
      let logs := if opts.errorLogs == some .disabled then [] else [logEntryFor err]
      match err with
      | .serverErr se =>
        ⟨.value (mkErrorObject se.getUserMessage se.getStatus se.getTags), logs, onArg, m.2⟩
      | _ =>
        ⟨.value (mkErrorObject "Internal Server Error" 500 []), logs, onArg, m.2⟩

/-- Model of a NextRequest as far as parseJSON inspects it: the Content-Type
header (none when absent) and the result of `await request.json()` — either a
decoded value or a thrown decode failure, identified by a numeric id. -/
structure RequestModel where
  contentType : Option String
  jsonBody : Except Nat JSValue

/-- src/src/helpers.ts, parseJSON (lines 126-139 of the current revision). -/
def parseJSON (req : RequestModel) : Except ServerError JSValue :=
  if req.contentType != some "application/json" then
    .error ⟨"Expected content type application/json",
            { status := some 406, userMessage := .useRaw }⟩
  else
    match req.jsonBody with
    | .ok v => .ok v
    | .error errId =>
      .error ⟨"Failed to decode JSON", { status := some 400, cause := some errId }⟩

/-!
Model of src/src/client/use-server-action.ts (current revision, lines 106-175).

The hook runs in the single-threaded cooperative JS model: the only suspension
point of an invocation is `await action(...args)`.  Everything before the await
(aborting the previous AbortController, installing a fresh one, clearing the
four visible state cells) runs atomically when the invocation starts, and
everything after the await runs atomically when it settles.  A trace is
therefore a sequence of two kinds of events: `start k` (the synchronous
prologue of invocation k) and `settle k res` (the continuation of invocation k
once its awaited action resolves or rejects).  Invocation k is aborted exactly
when its controller is no longer the current one: `start` replaces the current
controller and aborts the previous one, and controllers are never revived. -/

/-- The four visible state cells of the hook (useState values). -/
structure HookState where
  data : Option JSValue := none
  isSuccess : Bool := false
  error : Option JSValue := none
  errorObject : Option JSValue := none
deriving Repr

/-- A callback invocation observed during a settle (options.onSuccess or
options.onError with its errorObject second argument). -/
inductive CbEvent where
  | onSuccessCall (v : JSValue)
  | onErrorCall (e : JSValue) (obj : Option JSValue)

/-- UseServerActionOptions: only the presence of each callback matters to the
state machine; the trace records the arguments they receive. -/
structure HookOptions where
  onSuccess : Bool := false
  onError : Bool := false

/-- The machine: visible state, the id of the AbortController currently held
in the abortController ref, and the log of callback invocations. -/
structure HookMachine where
  vis : HookState := {}
  current : Option Nat := none
  cbLog : List CbEvent := []

/-- How the awaited `action(...args)` of one invocation settles. -/
inductive SettleResult where
  | resolved (v : JSValue)
  | raised (e : JSValue)

/-- An interleaving event: the prologue of invocation k, or the continuation
of invocation k after its action settled. -/
inductive HookEvent where
  | start (k : Nat)
  | settle (k : Nat) (res : SettleResult)

/-- The Error synthesised on the error-object path:
`const err = new Error(result.error); err.__errorObject = result;`. -/
def synthesizedError (v : JSValue) : JSValue :=
  .vObj [("message", getField v "error"), ("__errorObject", v)]

/-- `(err as any)?.__errorObject || null` -/
def errorObjectOf (e : JSValue) : Option JSValue :=
  if truthy (getField e "__errorObject") then some (getField e "__errorObject") else none

/-- One transition of the hook.
start k: abort the previous controller, install controller k, clear all four
visible cells (setData(undefined); setIsSuccess(false); setError(null);
setErrorObject(null)).
settle k res: the body of the startTransition callback after the await, with
`aborted` the abort status of the controller owned by invocation k — true exactly when
a later start has replaced it as current. -/
def hookStep (opts : HookOptions) (m : HookMachine) : HookEvent → HookMachine
  | .start k => { m with vis := {}, current := some k }
  | .settle k res =>
    let aborted : Bool := m.current != some k
    match res with
    | .resolved v =>
      let isErrObj := isErrorObject v
      let m₁ := if !isErrObj && opts.onSuccess then
                  { m with cbLog := m.cbLog ++ [.onSuccessCall v] }
                else m
      if aborted then m₁
      else if isErrObj then
        let err := synthesizedError v
        let m₂ := { m₁ with vis := { m₁.vis with errorObject := some v } }
        let m₃ := if opts.onError then
                    { m₂ with cbLog := m₂.cbLog ++ [.onErrorCall err (errorObjectOf err)] }
                  else m₂
        { m₃ with vis := { m₃.vis with error := some err, data := none, isSuccess := false } }
      else
        { m₁ with vis := { data := some v, isSuccess := true, error := none, errorObject := none } }
    | .raised e =>
      let m₁ := if opts.onError then
                  { m with cbLog := m.cbLog ++ [.onErrorCall e (errorObjectOf e)] }
                else m
      if aborted then m₁
      else { m₁ with vis := { m₁.vis with error := some e, data := none, isSuccess := false } }

/-- Run a sequence of interleaving events. -/
def hookRun (opts : HookOptions) (m : HookMachine) : List HookEvent → HookMachine
  | [] => m
  | e :: es => hookRun opts (hookStep opts m e) es

/-- Whether an event is the start of invocation A. -/
def isStartOf (A : Nat) : HookEvent → Bool
  | .start k => k == A
  | _ => false

/-- Discriminator on send outcomes: did send return a Response value (as
opposed to rethrowing the navigation signal or delegating to redirect)? -/
def SendOut.isResponse : SendOut → Bool
  | .response _ => true
  | _ => false

/-!
Helper lemmas shared by the claim theorems.
-/

/-- applyMapError never touches a ServerError (the instanceof guard). -/
theorem applyMapError_serverErr (opts : SendLikeOptions) (se : ServerError) :
    applyMapError opts (.serverErr se) = (.serverErr se, none) := by
  unfold applyMapError; cases opts.mapError <;> rfl

/-- A settle event never changes which AbortController is current. -/
theorem hookStep_settle_current (opts : HookOptions) (m : HookMachine) (k : Nat)
    (res : SettleResult) :
    (hookStep opts m (.settle k res)).current = m.current := by
  cases res <;> (simp only [hookStep]; repeat' split) <;> rfl

/-- The settle continuation of an invocation whose controller is no longer
current leaves the visible state untouched (it may still record callback
invocations, which happen before the abort check in the source). -/
theorem hookStep_settle_aborted_vis (opts : HookOptions) (m : HookMachine) (k : Nat)
    (res : SettleResult) (h : m.current ≠ some k) :
    (hookStep opts m (.settle k res)).vis = m.vis := by
  have hb : (m.current != some k) = true := by simpa [bne_iff_ne] using h
  cases res with
  | resolved v =>
    simp only [hookStep]
    rw [hb, if_pos rfl]
    split <;> rfl
  | raised e =>
    simp only [hookStep]
    rw [hb, if_pos rfl]
    split <;> rfl

/-- Running events none of which is `start A` keeps the current controller
different from controller A, provided it already was. -/
theorem hookRun_current_ne (opts : HookOptions) (A : Nat) :
    ∀ (es : List HookEvent) (m : HookMachine),
      (∀ e ∈ es, isStartOf A e = false) → m.current ≠ some A →
      (hookRun opts m es).current ≠ some A := by
  intro es
  induction es with
  | nil => intro m _ h; exact h
  | cons e es ih =>
    intro m hall hm
    have he := hall e (List.mem_cons_self e es)
    have hrest : ∀ x ∈ es, isStartOf A x = false := fun x hx => hall x (List.mem_cons_of_mem _ hx)
    refine ih _ hrest ?_
    cases e with
    | start k =>
      have hk : k ≠ A := by simpa [isStartOf] using he
      simp only [hookStep]
      exact fun hc => hk (by injection hc)
    | settle k res => rw [hookStep_settle_current]; exact hm

/-!
Claim theorems.
-/

/-- C7 counterexample: a ServerError constructed with the explicit override
string "" (which is present) resolves to the status-derived default message
"Not Found", not to the present override string — so the clause "otherwise the
explicit override string when one is present" fails for the empty override. -/
theorem c7_counterexample :
    (ServerError.mk "msg" { status := some 404, userMessage := .str "" }).getUserMessage
      = "Not Found"
    ∧ ("Not Found" : String) ≠ "" :=
  ⟨rfl, by decide⟩

/-- C7 (amended): getUserMessage returns the raw message when
info.userMessage is literally true; otherwise the explicit override string
when one is present and nonempty; otherwise (override absent or the empty
string) the fixed table value of getDefaultErrorMessage at the resolved
status; and any status outside the known set yields the generic fallback
"Error". -/
theorem c7_user_message_resolution (e : ServerError) :
    (e.info.userMessage = .useRaw → e.getUserMessage = e.message)
    ∧ (∀ s, e.info.userMessage = .str s → s ≠ "" → e.getUserMessage = s)
    ∧ ((e.info.userMessage = .absent ∨ e.info.userMessage = .str "") →
        e.getUserMessage = getDefaultErrorMessage e.getStatus)
    ∧ (∀ st : Int,
        st ∉ ([400, 401, 403, 404, 406, 409, 422, 429, 451, 500, 501] : List Int) →
        getDefaultErrorMessage st = "Error") := by
  refine ⟨?_, ?_, ?_, ?_⟩
  · intro h; simp [ServerError.getUserMessage, h]
  · intro s h hs; simp [ServerError.getUserMessage, h, hs]
  · rintro (h | h) <;> simp [ServerError.getUserMessage, h]
  · intro st hst
    simp only [List.mem_cons, List.mem_singleton] at hst
    push_neg at hst
    obtain ⟨h1, h2, h3, h4, h5, h6, h7, h8, h9, h10, h11⟩ := hst
    simp [getDefaultErrorMessage, h1, h2, h3, h4, h5, h6, h7, h8, h9, h10, h11]

/-- C7 witness: concrete instances of each branch of the amended claim. -/
theorem c7_witness :
    (ServerError.mk "raw" { userMessage := .useRaw }).getUserMessage = "raw"
    ∧ (ServerError.mk "raw" { userMessage := .str "override" }).getUserMessage = "override"
    ∧ (ServerError.mk "raw" { status := some 404 }).getUserMessage = getDefaultErrorMessage 404
    ∧ getDefaultErrorMessage 777 = "Error" :=
  ⟨(c7_user_message_resolution (ServerError.mk "raw" { userMessage := .useRaw })).1 rfl,
   (c7_user_message_resolution
      (ServerError.mk "raw" { userMessage := .str "override" })).2.1 "override" rfl (by decide),
   (c7_user_message_resolution (ServerError.mk "raw" { status := some 404 })).2.2.1 (Or.inl rfl),
   (c7_user_message_resolution (ServerError.mk "raw" {})).2.2.2 777 (by decide)⟩

/-- C8: any value whose __isErrorObj field is not the boolean true (in
particular when the field is absent, hence undefined) is classified as not an
error object by isErrorObject, regardless of its other fields. -/
theorem c8_discriminator_required (obj : JSValue)
    (h : getField obj "__isErrorObj" ≠ .vBool true) :
    isErrorObject obj = false := by
  have hb : isTrueVal (getField obj "__isErrorObj") = false := by
    cases hx : getField obj "__isErrorObj" with
    | vBool b =>
      cases b
      · rfl
      · exact absurd hx h
    | vNull => rfl
    | vUndefined => rfl
    | vNum n => rfl
    | vStr s => rfl
    | vObj f => rfl
    | vArr a => rfl
  simp [isErrorObject, hb]

/-- C8 witness: an object with a string error field and a numeric status
field but no discriminator marker is not classified as an error object. -/
theorem c8_witness :
    isErrorObject (.vObj [("error", .vStr "boom"), ("status", .vNum 404)]) = false :=
  c8_discriminator_required _ (fun h => nomatch h)

set_option maxHeartbeats 1000000 in
/-- C10: constructing a ServerError with the explicit empty-string override
(info.userMessage = "") makes getUserMessage ignore the override — the `||`
tests truthiness, not presence — and return the status-derived default
message, which is never the empty string. -/
theorem c10_empty_override_ignored (msg : String) (info : ServerErrorInfo)
    (h : info.userMessage = .str "") :
    (ServerError.mk msg info).getUserMessage
        = getDefaultErrorMessage (ServerError.mk msg info).getStatus
    ∧ (ServerError.mk msg info).getUserMessage ≠ "" := by
  have h1 : (ServerError.mk msg info).getUserMessage
      = getDefaultErrorMessage (ServerError.mk msg info).getStatus := by
    simp [ServerError.getUserMessage, h]
  refine ⟨h1, ?_⟩
  rw [h1]
  unfold getDefaultErrorMessage
  repeat' split
  all_goals decide

/-- C10 witness: the empty override with status 404 resolves to "Not Found". -/
theorem c10_witness :
    (ServerError.mk "hello" { status := some 404, userMessage := .str "" }).getUserMessage
        = getDefaultErrorMessage
            (ServerError.mk "hello" { status := some 404, userMessage := .str "" }).getStatus
    ∧ (ServerError.mk "hello" { status := some 404, userMessage := .str "" }).getUserMessage ≠ "" :=
  c10_empty_override_ignored "hello" { status := some 404, userMessage := .str "" } rfl

/-- C2: a thrown value satisfying the navigation-signal predicate
isRedirectError is rethrown by send and by act as that exact value, with no
log entry emitted and neither onError nor mapError invoked (the whole trace
shows it): it is never converted into a response or a structured error
object. -/
theorem c2_redirect_rethrown (t : Thrown) (opts : SendLikeOptions)
    (h : isRedirectError t = true) :
    send (.raised t) opts = ⟨.rethrown t, [], none, none⟩
    ∧ act (.raised t) opts = ⟨.rethrown t, [], none, none⟩ := by
  constructor <;> simp [send, act, h]

/-- C2 witness: a concrete navigation signal, with all hooks present,
propagates unchanged out of send and act. -/
theorem c2_witness :
    send (.raised (.redirectErr 0))
        { onError := true, mapError := some fun _ => some ⟨"mapped", {}⟩,
          errorLogs := some .all }
      = ⟨.rethrown (.redirectErr 0), [], none, none⟩
    ∧ act (.raised (.redirectErr 0))
        { onError := true, mapError := some fun _ => some ⟨"mapped", {}⟩,
          errorLogs := some .all }
      = ⟨.rethrown (.redirectErr 0), [], none, none⟩ :=
  c2_redirect_rethrown (.redirectErr 0)
    { onError := true, mapError := some fun _ => some ⟨"mapped", {}⟩,
      errorLogs := some .all } rfl

/-- C3: for every ServerError — arbitrary message, arbitrary status
(including 200), arbitrary tags (including the empty list) — and every
options record, the value act returns on the failure path is the error
object literal, which the isErrorObject discriminator always classifies as
an error and isSuccessObject never classifies as success. -/
theorem c3_act_failure_always_error_object (se : ServerError) (opts : SendLikeOptions) :
    (act (.raised (.serverErr se)) opts).outcome
      = .value (mkErrorObject se.getUserMessage se.getStatus se.getTags)
    ∧ isErrorObject (mkErrorObject se.getUserMessage se.getStatus se.getTags) = true
    ∧ isSuccessObject (mkErrorObject se.getUserMessage se.getStatus se.getTags) = false := by
  refine ⟨?_, rfl, rfl⟩
  simp [act, applyMapError_serverErr, isRedirectError]

/-- C6: parseJSON rejects any request whose Content-Type header is not
exactly "application/json" with a status 406 ServerError whose userMessage
flag makes the raw message user-facing, independently of the body decode
result (so the decoder is never consulted); with the correct content type a
throwing body decode yields a status 400 ServerError carrying the original
failure as its cause. -/
theorem c6_parse_json (req : RequestModel) :
    (req.contentType ≠ some "application/json" →
      parseJSON req = .error ⟨"Expected content type application/json",
        { status := some 406, userMessage := .useRaw }⟩)
    ∧ (∀ errId : Nat, req.contentType = some "application/json" →
        req.jsonBody = .error errId →
        parseJSON req
          = .error ⟨"Failed to decode JSON", { status := some 400, cause := some errId }⟩)
    ∧ (ServerError.getUserMessage ⟨"Expected content type application/json",
          { status := some 406, userMessage := .useRaw }⟩
        = "Expected content type application/json")
    ∧ (ServerError.getStatus ⟨"Expected content type application/json",
          { status := some 406, userMessage := .useRaw }⟩ = 406) := by
  refine ⟨?_, ?_, rfl, rfl⟩
  · intro h
    have hb : (req.contentType != some "application/json") = true := by
      simpa [bne_iff_ne] using h
    simp [parseJSON, hb]
  · intro errId h hb
    simp [parseJSON, h, hb]

/-- C6 witness: a text/html request fails with the 406 error even though its
body would decode, and a json request whose decode throws fails with the 400
error wrapping the failure as cause. -/
theorem c6_witness :
    parseJSON ⟨some "text/html", .ok .vNull⟩
      = .error ⟨"Expected content type application/json",
          { status := some 406, userMessage := .useRaw }⟩
    ∧ parseJSON ⟨some "application/json", .error 7⟩
      = .error ⟨"Failed to decode JSON", { status := some 400, cause := some 7 }⟩ :=
  ⟨(c6_parse_json ⟨some "text/html", .ok .vNull⟩).1 (by simp),
   (c6_parse_json ⟨some "application/json", .error 7⟩).2.1 7 rfl rfl⟩

/-- C5 counterexample: with errorLogs = "5xx", act logs a caught ServerError
whose resolved status is 404 (below 500) — while send, at the identical
input, logs nothing — so act does not obey the same "5xx" policy as send. -/
theorem c5_counterexample :
    (act (.raised (.serverErr ⟨"m", { status := some 404 }⟩))
        { errorLogs := some .fivexx }).logs
      = [.serverError 404 ⟨"m", { status := some 404 }⟩]
    ∧ (act (.raised (.serverErr ⟨"m", { status := some 404 }⟩))
        { errorLogs := some .fivexx }).logs ≠ []
    ∧ (send (.raised (.serverErr ⟨"m", { status := some 404 }⟩))
        { errorLogs := some .fivexx }).logs = []
    ∧ ((404 : Int) < 500) :=
  ⟨rfl, List.cons_ne_nil _ _, rfl, by decide⟩

/-- C5 (amended): act emits no log entry when errorLogs is "disabled"; in
every other case — option absent, "all", or "5xx" alike — it logs every
caught non-navigation error exactly once (after the mapError stage).  The
status ≥ 500 restriction of "5xx" exists only in send, not in act. -/
theorem c5_act_logging_policy (t : Thrown) (opts : SendLikeOptions)
    (h : isRedirectError t = false) :
    (act (.raised t) opts).logs
      = if opts.errorLogs = some .disabled then []
        else [logEntryFor (applyMapError opts t).1] := by
  rcases h1 : (applyMapError opts t).1 with se | id | id <;>
    simp [act, h, h1, beq_iff_eq]

/-- C5 witness: with no errorLogs option an unknown error is logged; the
amended characterisation applied at a concrete input. -/
theorem c5_witness :
    (act (.raised (.other 0)) {}).logs
      = if (none : Option ErrorLogs) = some .disabled then []
        else [logEntryFor (applyMapError {} (.other 0)).1] :=
  c5_act_logging_policy (.other 0) {} rfl

/-- C1 counterexample: a thrown value that is not a ServerError and is not
remapped by mapError — the navigation signal — is rethrown by send, not
returned as a status 500 response, so the second half of the claim fails as
universally stated. -/
theorem c1_counterexample :
    (send (.raised (.redirectErr 0)) {}).outcome = .rethrown (.redirectErr 0)
    ∧ ((send (.raised (.redirectErr 0)) {}).outcome).isResponse = false
    ∧ (send (.raised (.redirectErr 0)) {}).outcome
        ≠ .response ⟨500, .errorJson "Internal Server Error" 500 []⟩ :=
  ⟨rfl, rfl, fun h => nomatch h⟩

/-- C1 (amended): a unit of work throwing a ServerError without a (truthy)
redirect target makes send return a response whose status is the resolved
status and whose JSON body is the error/status/tags object; a thrown value
that is not a ServerError, does not satisfy the navigation-signal predicate,
and is not remapped to a ServerError by mapError yields the generic 500
response. -/
theorem c1_send_error_responses :
    (∀ (se : ServerError) (opts : SendLikeOptions), se.shouldRedirect = false →
      (send (.raised (.serverErr se)) opts).outcome
        = .response ⟨se.getStatus, .errorJson se.getUserMessage se.getStatus se.getTags⟩)
    ∧ (∀ (t : Thrown) (opts : SendLikeOptions),
        t.isServerErrorVal = false → isRedirectError t = false →
        ((applyMapError opts t).1).isServerErrorVal = false →
        (send (.raised t) opts).outcome
          = .response ⟨500, .errorJson "Internal Server Error" 500 []⟩) := by
  constructor
  · intro se opts h
    simp [send, applyMapError_serverErr, isRedirectError, h]
  · intro t opts h1 h2 h3
    rcases h4 : (applyMapError opts t).1 with se | id | id
    · rw [h4] at h3; simp [Thrown.isServerErrorVal] at h3
    · simp [send, h2, h4]
    · simp [send, h2, h4]

/-- C1 witness: the 404/userMessage "X" example of the spec produces the 404
response with body error "X", status 404, empty tags; a plain unknown error
produces the generic 500 response. -/
theorem c1_witness :
    (send (.raised (.serverErr ⟨"X", { status := some 404, userMessage := .useRaw }⟩)) {}).outcome
      = .response ⟨404, .errorJson "X" 404 []⟩
    ∧ (send (.raised (.other 3)) {}).outcome
      = .response ⟨500, .errorJson "Internal Server Error" 500 []⟩ :=
  ⟨c1_send_error_responses.1 ⟨"X", { status := some 404, userMessage := .useRaw }⟩ {} rfl,
   c1_send_error_responses.2 (.other 3) {} rfl rfl rfl⟩

/-- C4 counterexample: a thrown ServerError with a redirect target does not
satisfy the navigation-signal predicate, yet send does not convert it into a
returned response — it delegates to the navigation redirect primitive — so
the "converted into a returned response" half of the claim fails as stated. -/
theorem c4_counterexample :
    isRedirectError (.serverErr ⟨"m", { redirect := some "/login" }⟩) = false
    ∧ (send (.raised (.serverErr ⟨"m", { redirect := some "/login" }⟩)) {}).outcome
        = .navigated "/login" none
    ∧ ((send (.raised (.serverErr ⟨"m", { redirect := some "/login" }⟩)) {}).outcome).isResponse
        = false :=
  ⟨rfl, rfl, rfl⟩

/-- C4 (amended): for every unit of work and options record, send either
returns a response, rethrows a value satisfying the navigation-signal
predicate, or delegates to the navigation redirect primitive (which raises a
fresh navigation signal); hence no exception other than the navigation
control-flow signal ever propagates out of send. -/
theorem c4_send_never_escapes (work : WorkResult Response) (opts : SendLikeOptions) :
    (∃ r, (send work opts).outcome = .response r)
    ∨ (∃ t, isRedirectError t = true ∧ (send work opts).outcome = .rethrown t)
    ∨ (∃ url ty, (send work opts).outcome = .navigated url ty) := by
  cases work with
  | value r => exact Or.inl ⟨r, rfl⟩
  | raised t =>
    cases h : isRedirectError t with
    | true => exact Or.inr (Or.inl ⟨t, h, by simp [send, h]⟩)
    | false =>
      rcases h1 : (applyMapError opts t).1 with se | id | id
      · cases h2 : se.shouldRedirect with
        | true =>
          refine Or.inr (Or.inr ⟨se.getRedirect, se.info.redirectType, ?_⟩)
          simp [send, h, h1, h2]
        | false =>
          refine Or.inl ⟨⟨se.getStatus, .errorJson se.getUserMessage se.getStatus se.getTags⟩, ?_⟩
          simp [send, h, h1, h2]
      · exact Or.inl ⟨⟨500, .errorJson "Internal Server Error" 500 []⟩, by simp [send, h, h1]⟩
      · exact Or.inl ⟨⟨500, .errorJson "Internal Server Error" 500 []⟩, by simp [send, h, h1]⟩

/-- C9: if invocation B starts (its synchronous prologue runs) before
invocation A settles, and no further start of A intervenes, then the settle
continuation of A — whether its action resolved or raised, and from any
machine state — leaves the visible hook state (data, isSuccess, error,
errorObject) exactly as it was: only the most recently started invocation
can mutate visible state. -/
theorem c9_superseded_settle_no_state_change
    (opts : HookOptions) (m : HookMachine) (A B : Nat) (hAB : A ≠ B)
    (es : List HookEvent) (hes : ∀ e ∈ es, isStartOf A e = false) (res : SettleResult) :
    (hookStep opts (hookRun opts (hookStep opts m (.start B)) es) (.settle A res)).vis
      = (hookRun opts (hookStep opts m (.start B)) es).vis := by
  apply hookStep_settle_aborted_vis
  apply hookRun_current_ne opts A es _ hes
  simp only [hookStep]
  exact fun h => hAB (by injection h with h; exact h.symm)

/-- C9 witness: invocation 0 is superseded by invocation 1; even after
invocation 1 settles successfully, the late settlement of invocation 0
changes nothing in the visible state. -/
theorem c9_witness :
    (hookStep {} (hookRun {} (hookStep {} {} (.start 1)) [.settle 1 (.resolved (.vStr "ok"))])
        (.settle 0 (.resolved .vNull))).vis
      = (hookRun {} (hookStep {} {} (.start 1)) [.settle 1 (.resolved (.vStr "ok"))]).vis :=
  c9_superseded_settle_no_state_change {} {} 0 1 (by decide)
    [.settle 1 (.resolved (.vStr "ok"))]
    (by intro e he; rw [List.mem_singleton] at he; subst he; rfl)
    (.resolved .vNull)
